import Mathlib

/-!
Verification of the `ConvexBackend` lifecycle manager (convex-vite-plugin).

Shallow embedding of `ConvexBackend` (constructor, `spawn`, `waitForReady`/
`healthCheck`, `deploy`, `setEnv`, `runFunction`, `stop`) as pure Lean
functions.  External effects (process spawning, HTTP responses, the deploy
subprocess, filesystem removal) are threaded through as explicit inputs or
reported as an `ExtAction` trace, so each method becomes a function from the
instance state and the outcome of the external world to the new state and an
`Except` result mirroring the thrown JavaScript errors.
-/

/-- JavaScript truthiness for an optional string: `undefined` and the empty
string are falsy, every other string is truthy.  This is the semantics of
`if (options.instanceSecret && options.adminKey)` in the constructor. -/
def jsTruthyStr : Option String → Bool
  | none => false
  | some s => !s.isEmpty

/-- JavaScript truthiness for an optional number: `undefined` and `0` are
falsy.  This is the semantics of the `if (!this.port)` guards in `deploy`,
`setEnv`, `runFunction` and `healthCheck`. -/
def jsTruthyNum : Option Nat → Bool
  | none => false
  | some n => n != 0

/-- The caller-facing configuration surface (`ConvexBackendOptions`).
Fields the claims never touch (`stdio`, binary cache settings) are omitted;
every modelled field is optional exactly as in the TypeScript interface. -/
structure ConvexBackendOptions where
  instanceName : Option String := none
  instanceSecret : Option String := none
  adminKey : Option String := none
  port : Option Nat := none
  siteProxyPort : Option Nat := none
  projectDir : Option String := none
  deployTimeout : Option Nat := none
  healthCheckTimeout : Option Nat := none
deriving Repr, DecidableEq

/-- The state of a `ConvexBackend` instance.  The `ChildProcess` handle is
modelled by its process identifier: `this.process` is `undefined` or carries
a `pid`, and every use in the class goes through `this.process.pid`, so
`Option Nat` captures the handle (`none` = handle absent). -/
structure ConvexBackend where
  port : Option Nat
  siteProxyPort : Option Nat
  process : Option Nat
  backendUrl : String
  projectDir : String
  backendDir : String
  instanceName : String
  instanceSecret : String
  adminKey : String
  deployTimeout : Nat
  healthCheckTimeout : Nat
deriving Repr, DecidableEq

/-- Modelled from the spec: `generateKeyPair` lives in `keys.ts`, which is not
part of the available sources.  The spec describes it as producing "a fresh,
sufficiently random secret and a derived admin token" for an instance name —
in particular a high-entropy (hence nonempty) secret, with the token a
deterministic function of name and secret.  This model fixes one sample of
the random source; the constructor below is parametric in the generator, so
theorems that hold for every generator do not depend on this choice. -/
def generateKeyPair (instanceName : String) : String × String :=
  ("secret-" ++ instanceName, "admin-token-" ++ instanceName)

/-- The `ConvexBackend` constructor.  `gen` is the credential generator
(`generateKeyPair` in the source), `cwd` stands for `process.cwd()`, and
`randomHex` for the hex rendering of `crypto.randomBytes(16)` used in the
backend directory name; all three are effects of the environment, passed in
explicitly.  Field by field this mirrors the constructor body:
ports default to `3210`/`3211` via nullish coalescing (`?? `), the backend
URL is derived from the port, the instance name defaults to
`"convex-local"`, and the credential pair is taken verbatim from the options
when `options.instanceSecret && options.adminKey` is truthy and regenerated
from the instance name otherwise.  No process is spawned: `process` starts
absent. -/
def mkConvexBackend (gen : String → String × String) (cwd randomHex : String)
    (o : ConvexBackendOptions) : ConvexBackend :=
  let projectDir := o.projectDir.getD cwd
  let backendDir := projectDir ++ "/.convex/" ++ randomHex
  let port := o.port.getD 3210
  let siteProxyPort := o.siteProxyPort.getD 3211
  let instanceName := o.instanceName.getD "convex-local"
  let creds :=
    if jsTruthyStr o.instanceSecret && jsTruthyStr o.adminKey then
      (o.instanceSecret.getD "", o.adminKey.getD "")
    else
      gen instanceName
  { port := some port
    siteProxyPort := some siteProxyPort
    process := none
    backendUrl := "http://127.0.0.1:" ++ toString port
    projectDir := projectDir
    backendDir := backendDir
    instanceName := instanceName
    instanceSecret := creds.1
    adminKey := creds.2
    deployTimeout := o.deployTimeout.getD 60000
    healthCheckTimeout := o.healthCheckTimeout.getD 10000 }

/-- Method `getAdminKey()`. -/
def ConvexBackend.getAdminKey (b : ConvexBackend) : String :=
  b.adminKey

/-- C9: for all valid configurations, construction leaves the process handle
absent — the constructor performs no process-related effect, and
`this.process` is only ever assigned inside `spawn()`. -/
theorem C9_construct_no_process (gen : String → String × String)
    (cwd randomHex : String) (o : ConvexBackendOptions) :
    (mkConvexBackend gen cwd randomHex o).process = none := by
  rfl

/-- C10: when exactly one of the instance secret and the admin key is
supplied, the constructor discards the supplied value and takes both
credentials from the generator applied to the instance name. -/
theorem C10_one_supplied_regenerates (gen : String → String × String)
    (cwd randomHex : String) (o : ConvexBackendOptions)
    (h : (o.instanceSecret = none ∧ ∃ t, o.adminKey = some t) ∨
         ((∃ s, o.instanceSecret = some s) ∧ o.adminKey = none)) :
    (mkConvexBackend gen cwd randomHex o).instanceSecret =
        (gen (o.instanceName.getD "convex-local")).1 ∧
      (mkConvexBackend gen cwd randomHex o).adminKey =
        (gen (o.instanceName.getD "convex-local")).2 := by
  have hcond : (jsTruthyStr o.instanceSecret && jsTruthyStr o.adminKey) = false := by
    rcases h with ⟨hs, _, ht⟩ | ⟨⟨s, hs⟩, ht⟩
    · simp [hs, jsTruthyStr]
    · simp [ht, jsTruthyStr]
  simp [mkConvexBackend, hcond]

/-- Witness for C10 at a concrete input: only the admin key is supplied, and
both stored credentials come from the generator. -/
theorem C10_one_supplied_regenerates_witness :
    (mkConvexBackend generateKeyPair "/work" "abcd"
        { adminKey := some "tok" }).instanceSecret =
      (generateKeyPair (Option.getD (none : Option String) "convex-local")).1 ∧
    (mkConvexBackend generateKeyPair "/work" "abcd"
        { adminKey := some "tok" }).adminKey =
      (generateKeyPair (Option.getD (none : Option String) "convex-local")).2 :=
  C10_one_supplied_regenerates generateKeyPair "/work" "abcd"
    { adminKey := some "tok" }
    (Or.inl ⟨rfl, "tok", rfl⟩)

/-- Counterexample for C2 as stated: the configuration supplies both an
instance secret (the empty string, a legal `string` value) and a nonempty
admin token, yet the constructor does not keep the supplied values — the
truthiness check `options.instanceSecret && options.adminKey` treats the
empty string as absent and regenerates both credentials. -/
theorem C2_empty_secret_not_bypassed :
    ¬((mkConvexBackend generateKeyPair "/work" "abcd"
          { instanceSecret := some "", adminKey := some "tok" }).instanceSecret = "" ∧
      (mkConvexBackend generateKeyPair "/work" "abcd"
          { instanceSecret := some "", adminKey := some "tok" }).adminKey = "tok") := by
  decide

/-- C2 (amended): for every configuration that supplies both a nonempty
instance secret and a nonempty admin token, the generator is bypassed
entirely — for every generator, the stored credentials equal the supplied
values. -/
theorem C2_supplied_credentials_kept (gen : String → String × String)
    (cwd randomHex : String) (o : ConvexBackendOptions) (s t : String)
    (hs : o.instanceSecret = some s) (ht : o.adminKey = some t)
    (hs' : s ≠ "") (ht' : t ≠ "") :
    (mkConvexBackend gen cwd randomHex o).instanceSecret = s ∧
      (mkConvexBackend gen cwd randomHex o).adminKey = t := by
  have hse : s.isEmpty = false := by
    cases hE : s.isEmpty with
    | false => rfl
    | true => exact absurd ((String.isEmpty_iff s).mp hE) hs'
  have hte : t.isEmpty = false := by
    cases hE : t.isEmpty with
    | false => rfl
    | true => exact absurd ((String.isEmpty_iff t).mp hE) ht'
  have hcond : (jsTruthyStr o.instanceSecret && jsTruthyStr o.adminKey) = true := by
    simp [hs, ht, jsTruthyStr, hse, hte]
  simp only [mkConvexBackend, hcond, if_true]
  simp [hs, ht]

/-- Witness for the amended C2 at a concrete input. -/
theorem C2_supplied_credentials_kept_witness :
    (mkConvexBackend generateKeyPair "/work" "abcd"
        { instanceSecret := some "sec", adminKey := some "tok" }).instanceSecret = "sec" ∧
    (mkConvexBackend generateKeyPair "/work" "abcd"
        { instanceSecret := some "sec", adminKey := some "tok" }).adminKey = "tok" :=
  C2_supplied_credentials_kept generateKeyPair "/work" "abcd"
    { instanceSecret := some "sec", adminKey := some "tok" } "sec" "tok"
    rfl rfl (by decide) (by decide)

/-- An observable action on the external world, recorded in order. -/
inductive ExtAction where
  | mkdirStorage (dir : String)
  | downloadBinary
  | spawnProcess (binary : String)
  | probe (url : String)
  | kill (pid : Nat)
  | rmDir (dir : String)
deriving Repr, DecidableEq

/-- The only statement in `stop` that can throw is `await fsp.rm(...)` (the
termination signal is wrapped in `try { } catch { }`), so a stop either
succeeds or fails with a directory-removal error. -/
inductive StopError where
  | rmFailed (dir : String)
deriving Repr, DecidableEq

/-- The outcome of a `stop` call: the updated instance, the thrown error (if
any), and the trace of external actions performed. -/
structure StopOutcome where
  backend : ConvexBackend
  result : Except StopError Unit
  actions : List ExtAction
deriving Repr

/-- Method `stop(cleanup)`.  `killSucceeds` is the outcome of
`process.kill(pid, "SIGKILL")` and `rmSucceeds` that of
`fsp.rm(this.backendDir, { recursive: true })`; both are effects decided by
the environment.  Mirroring the source: when the handle (or its pid) is
absent the call returns immediately; otherwise the SIGKILL is sent with its
failure swallowed by the `try`/`catch` (so `killSucceeds` does not influence
the outcome), the handle is cleared, and only then, when `cleanup` is
requested, the working directory is removed, a failure there surfacing as
the call's rejection. -/
def ConvexBackend.stop (b : ConvexBackend) (cleanup killSucceeds rmSucceeds : Bool) :
    StopOutcome :=
  match b.process with
  | none => ⟨b, .ok (), []⟩
  | some pid =>
    let b' := { b with process := none }
    if cleanup then
      ⟨b', if rmSucceeds then .ok () else .error (.rmFailed b.backendDir),
        [ExtAction.kill pid, ExtAction.rmDir b.backendDir]⟩
    else
      ⟨b', .ok (), [ExtAction.kill pid]⟩

/-- C3: stopping an instance with a live handle always sends the kill signal
and clears the handle — whether or not the signal delivery succeeds (an
already-exited process is not an error: the outcome is the same for both
values of `killSucceeds`).  With `cleanup` the directory removal is
attempted, and its failure is reported independently as the only possible
error, the handle being cleared even then. -/
theorem C3_stop_live_terminates (b : ConvexBackend) (pid : Nat)
    (cleanup killSucceeds rmSucceeds : Bool) (h : b.process = some pid) :
    (b.stop cleanup killSucceeds rmSucceeds).backend.process = none ∧
    ExtAction.kill pid ∈ (b.stop cleanup killSucceeds rmSucceeds).actions ∧
    (cleanup = true →
      ExtAction.rmDir b.backendDir ∈ (b.stop cleanup killSucceeds rmSucceeds).actions) ∧
    ((b.stop cleanup killSucceeds rmSucceeds).result =
        .error (.rmFailed b.backendDir) ↔ cleanup = true ∧ rmSucceeds = false) ∧
    ((b.stop cleanup killSucceeds rmSucceeds).result = .ok () ∨
      (b.stop cleanup killSucceeds rmSucceeds).result =
        .error (.rmFailed b.backendDir)) ∧
    (∀ killSucceedsOther,
      b.stop cleanup killSucceeds rmSucceeds = b.stop cleanup killSucceedsOther rmSucceeds) := by
  cases cleanup <;> cases rmSucceeds <;>
    simp [ConvexBackend.stop, h]

/-- A sample instance built with the default configuration. -/
def sampleBackend : ConvexBackend :=
  mkConvexBackend generateKeyPair "/work" "cafebabe" {}

/-- The instance `sampleBackend` after `spawn` has assigned pid 42. -/
def sampleRunning : ConvexBackend :=
  { sampleBackend with process := some 42 }

/-- Witness for C3: stopping the running sample instance with cleanup and a
failing directory removal. -/
theorem C3_stop_live_terminates_witness :
    (sampleRunning.stop true true false).backend.process = none ∧
    ExtAction.kill 42 ∈ (sampleRunning.stop true true false).actions ∧
    (true = true →
      ExtAction.rmDir sampleRunning.backendDir ∈ (sampleRunning.stop true true false).actions) ∧
    ((sampleRunning.stop true true false).result =
        .error (.rmFailed sampleRunning.backendDir) ↔ true = true ∧ false = false) ∧
    ((sampleRunning.stop true true false).result = .ok () ∨
      (sampleRunning.stop true true false).result =
        .error (.rmFailed sampleRunning.backendDir)) ∧
    (∀ killSucceedsOther,
      sampleRunning.stop true true false = sampleRunning.stop true killSucceedsOther false) :=
  C3_stop_live_terminates sampleRunning 42 true true false rfl

/-- After any `stop`, the stored process handle is absent. -/
theorem stop_clears_process (b : ConvexBackend) (c ks rs : Bool) :
    (b.stop c ks rs).backend.process = none := by
  rcases hp : b.process with _ | pid <;> cases c <;> cases rs <;>
    simp [ConvexBackend.stop, hp]

/-- C4: `stop()` is idempotent — on an instance whose handle is absent (never
spawned, or already stopped) it is a no-op that returns successfully and
performs no action, and an immediate second `stop()` after any first one is
such a no-op, hence never raises. -/
theorem C4_stop_idempotent (b : ConvexBackend) (c ks rs c' ks' rs' : Bool) :
    (b.process = none → b.stop c ks rs = ⟨b, .ok (), []⟩) ∧
    (b.stop c ks rs).backend.stop c' ks' rs' =
      ⟨(b.stop c ks rs).backend, .ok (), []⟩ := by
  constructor
  · intro h
    simp [ConvexBackend.stop, h]
  · have h := stop_clears_process b c ks rs
    revert h
    generalize (b.stop c ks rs).backend = b2
    intro h
    simp [ConvexBackend.stop, h]

/-- Witness for C4: on the freshly constructed sample instance (handle
absent) `stop` is a no-op, and stopping the running sample twice makes the
second call a no-op that returns successfully. -/
theorem C4_stop_idempotent_witness :
    sampleBackend.stop true true false = ⟨sampleBackend, .ok (), []⟩ ∧
    (sampleRunning.stop true true false).backend.stop true true false =
      ⟨(sampleRunning.stop true true false).backend, .ok (), []⟩ :=
  ⟨(C4_stop_idempotent sampleBackend true true false true true false).1 rfl,
   (C4_stop_idempotent sampleRunning true true false true true false).2⟩

/-- The result of `childProcess.spawnSync` as consumed by `deploy`: the
`error` field (set when the command could not be spawned or was killed on
timeout), the exit `status` (`null`, modelled `none`, when the process was
terminated by a signal — in particular on timeout), and the captured output
streams. -/
structure SpawnSyncResult where
  error : Option String
  status : Option Int
  stdout : String
  stderr : String
deriving Repr

/-- JavaScript string interpolation of the `status` field (`null` prints as
"null"). -/
def statusString : Option Int → String
  | none => "null"
  | some n => toString n

/-- Method `deploy()`.  `res` is the outcome of the synchronous
`bun convex deploy` invocation, an effect of the environment.  Mirroring the
source: the `!this.port` guard throws "Backend not started"; a truthy
`deployResult.error` throws the spawn-failure message; a status other than
`0` throws the deploy-failure message embedding the exit code and the
concatenated captured stdout and stderr; otherwise the call returns. -/
def ConvexBackend.deploy (b : ConvexBackend) (res : SpawnSyncResult) :
    Except String Unit :=
  if !jsTruthyNum b.port then .error "Backend not started"
  else
    match res.error with
    | some msg => .error ("Failed to spawn convex deploy: " ++ msg)
    | none =>
      if res.status = some 0 then .ok ()
      else
        .error ("Failed to deploy (exit code " ++ statusString res.status ++ "):\n" ++
          res.stdout ++ res.stderr)

/-- Models `node:child_process.spawnSync` under its `timeout` option
(documented platform behavior, external to this repository): a command whose
run time exceeds the timeout is killed, reported through the `error` field
as an `ETIMEDOUT` system error with a `null` exit status; otherwise the
command's own exit status and captured output are reported and `error` is
unset. -/
def spawnSyncOutcome (timeoutMs durationMs : Nat) (exitStatus : Int)
    (out errOut : String) : SpawnSyncResult :=
  if timeoutMs < durationMs then
    { error := some "spawnSync bun ETIMEDOUT", status := none, stdout := "", stderr := "" }
  else
    { error := none, status := some exitStatus, stdout := out, stderr := errOut }

/-- An HTTP response as consumed through the Fetch API: status code and body
text. -/
structure HttpResponse where
  status : Nat
  body : String
deriving Repr, DecidableEq

/-- Predicate `Response.ok` of the Fetch API: true exactly for the 2xx range. -/
def HttpResponse.isOk (r : HttpResponse) : Bool :=
  200 ≤ r.status && r.status ≤ 299

/-- Method `setEnv(name, value)`.  `resp` is the response of the
`update_environment_variables` POST, an effect of the environment (`value`
only flows into the request body, which carries no further behavior here).
Mirroring the source: the `!this.port` guard throws "Backend not started";
a non-ok response throws a message carrying the variable name, the HTTP
status and the response body text; an ok response returns. -/
def ConvexBackend.setEnv (b : ConvexBackend) (name _value : String)
    (resp : HttpResponse) : Except String Unit :=
  if !jsTruthyNum b.port then .error "Backend not started"
  else if resp.isOk then .ok ()
  else
    .error ("Failed to set " ++ name ++ " env via API (" ++ toString resp.status ++
      "): " ++ resp.body)

/-- Method `runFunction(functionName, args)`.  `resp` is the response of the
`/api/function` POST; on success the source returns `result.value` from the
decoded JSON body, modelled here by returning the body itself. -/
def ConvexBackend.runFunction (b : ConvexBackend) (functionName : String)
    (resp : HttpResponse) : Except String String :=
  if !jsTruthyNum b.port then .error "Backend not started"
  else if resp.isOk then .ok resp.body
  else
    .error ("Failed to run " ++ functionName ++ " (" ++ toString resp.status ++
      "): " ++ resp.body)

/-- C1 evaluated on the code at the failing input: a freshly constructed
default instance has no process handle, yet `deploy`, `setEnv` and
`runFunction` do not fail fast — each guard tests `this.port`, which the
constructor unconditionally sets (3210 by default), so all three operations
proceed to their external call with the handle absent. -/
theorem C1_absent_handle_not_failing_fast :
    sampleBackend.process = none ∧
    sampleBackend.deploy { error := none, status := some 0, stdout := "", stderr := "" } =
      .ok () ∧
    sampleBackend.setEnv "SITE_URL" "http://x" ⟨200, ""⟩ = .ok () ∧
    sampleBackend.runFunction "mod:fn" ⟨200, "null"⟩ = .ok "null" :=
  ⟨rfl, rfl, rfl, rfl⟩

/-- C6: on an instance whose port guard passes, a deploy command exiting with
a non-zero status raises a deploy-failure error embedding the exit code and
the captured stdout and stderr, and a command exceeding the deploy timeout
raises an error flavored with the `ETIMEDOUT` condition instead of hanging
(the synchronous call is bounded by the timeout handed to `spawnSync`). -/
theorem C6_deploy_failures_surfaced (b : ConvexBackend)
    (hport : jsTruthyNum b.port = true) :
    (∀ (n : Int) (out errOut : String), n ≠ 0 →
      ∃ msg, b.deploy { error := none, status := some n, stdout := out, stderr := errOut } =
          .error msg ∧
        (∃ p q, msg = p ++ toString n ++ q) ∧
        (∃ p q, msg = p ++ out ++ q) ∧
        (∃ p q, msg = p ++ errOut ++ q)) ∧
    (∀ (durationMs : Nat) (exitStatus : Int) (out errOut : String),
      b.deployTimeout < durationMs →
      ∃ msg, b.deploy (spawnSyncOutcome b.deployTimeout durationMs exitStatus out errOut) =
          .error msg ∧
        ∃ p q, msg = p ++ "ETIMEDOUT" ++ q) := by
  constructor
  · intro n out errOut hn
    refine ⟨"Failed to deploy (exit code " ++ statusString (some n) ++ "):\n" ++
      out ++ errOut, ?_, ?_, ?_, ?_⟩
    · simp only [ConvexBackend.deploy, hport, Bool.not_true, Bool.false_eq_true,
        if_false]
      simp [hn]
    · exact ⟨"Failed to deploy (exit code ", "):\n" ++ out ++ errOut, by
        simp [statusString, String.append_assoc]⟩
    · exact ⟨"Failed to deploy (exit code " ++ statusString (some n) ++ "):\n",
        errOut, by simp [String.append_assoc]⟩
    · exact ⟨"Failed to deploy (exit code " ++ statusString (some n) ++ "):\n" ++ out,
        "", by simp [String.append_assoc]⟩
  · intro durationMs exitStatus out errOut hdur
    refine ⟨"Failed to spawn convex deploy: " ++ "spawnSync bun ETIMEDOUT", ?_, ?_⟩
    · simp only [ConvexBackend.deploy, spawnSyncOutcome, hport, hdur, if_true,
        Bool.not_true, Bool.false_eq_true, if_false]
    · exact ⟨"Failed to spawn convex deploy: " ++ "spawnSync bun ", "", by
        simp [String.append_assoc]⟩

/-- Witness for C6: on the sample instance, a deploy exiting 1 with captured
output, and one running past the 60000ms default timeout. -/
theorem C6_deploy_failures_surfaced_witness :
    (∃ msg, sampleBackend.deploy
          { error := none, status := some 1, stdout := "out", stderr := "err" } =
        .error msg ∧
      (∃ p q, msg = p ++ toString (1 : Int) ++ q) ∧
      (∃ p q, msg = p ++ "out" ++ q) ∧
      (∃ p q, msg = p ++ "err" ++ q)) ∧
    (∃ msg, sampleBackend.deploy
          (spawnSyncOutcome sampleBackend.deployTimeout 60001 0 "" "") =
        .error msg ∧
      ∃ p q, msg = p ++ "ETIMEDOUT" ++ q) :=
  ⟨(C6_deploy_failures_surfaced sampleBackend rfl).1 1 "out" "err" (by decide),
   (C6_deploy_failures_surfaced sampleBackend rfl).2 60001 0 "" "" (by decide)⟩

/-- C7: on an instance whose port guard passes, `setEnv` with a non-2xx
response raises an error whose message contains both the HTTP status code
and the response body text, and a 2xx response returns without error. -/
theorem C7_setEnv_error_carries_status_body (b : ConvexBackend)
    (name value : String) (resp : HttpResponse)
    (hport : jsTruthyNum b.port = true) :
    (¬(200 ≤ resp.status ∧ resp.status ≤ 299) →
      ∃ msg, b.setEnv name value resp = .error msg ∧
        (∃ p q, msg = p ++ toString resp.status ++ q) ∧
        (∃ p q, msg = p ++ resp.body ++ q)) ∧
    ((200 ≤ resp.status ∧ resp.status ≤ 299) → b.setEnv name value resp = .ok ()) := by
  constructor
  · intro hbad
    have hok : resp.isOk = false := by
      simp [HttpResponse.isOk]
      intro h1
      rcases Nat.lt_or_ge 299 resp.status with h2 | h2
      · exact h2
      · exact absurd ⟨h1, h2⟩ hbad
    refine ⟨"Failed to set " ++ name ++ " env via API (" ++ toString resp.status ++
      "): " ++ resp.body, ?_, ?_, ?_⟩
    · simp [ConvexBackend.setEnv, hport, hok]
    · exact ⟨"Failed to set " ++ name ++ " env via API (", "): " ++ resp.body, by
        simp [String.append_assoc]⟩
    · exact ⟨"Failed to set " ++ name ++ " env via API (" ++ toString resp.status ++
        "): ", "", by simp [String.append_assoc]⟩
  · intro hgood
    have hok : resp.isOk = true := by
      simp [HttpResponse.isOk]
      exact ⟨hgood.1, hgood.2⟩
    simp [ConvexBackend.setEnv, hport, hok]

/-- Witness for C7: a 500 response with body "boom", and a 200 response. -/
theorem C7_setEnv_error_carries_status_body_witness :
    (∃ msg, sampleBackend.setEnv "K" "V" ⟨500, "boom"⟩ = .error msg ∧
      (∃ p q, msg = p ++ toString (500 : Nat) ++ q) ∧
      (∃ p q, msg = p ++ "boom" ++ q)) ∧
    sampleBackend.setEnv "K" "V" ⟨200, ""⟩ = .ok () :=
  ⟨(C7_setEnv_error_carries_status_body sampleBackend "K" "V" ⟨500, "boom"⟩ rfl).1
      (by decide),
   (C7_setEnv_error_carries_status_body sampleBackend "K" "V" ⟨200, ""⟩ rfl).2
      (by decide)⟩

/-- Method `spawn(backendDir)`.  `convexBinary` is the path returned by
`downloadConvexBinary` and `pidOutcome` the process identifier assigned by
`childProcess.spawn` (`none` when process creation yields no pid).
Mirroring the source: the storage directory is created, the binary resolved,
the process launched exactly once, and the method returns right after the
pid check — it throws when no pid was assigned and otherwise stores the
handle; no readiness probe is issued and no second spawn is attempted.  A
`ChildProcess` whose `pid` is `undefined` is identified with the absent
handle, since `stop` and every other consumer of `this.process` only read it
through a defined `pid`. -/
def ConvexBackend.spawn (b : ConvexBackend) (backendDir convexBinary : String)
    (pidOutcome : Option Nat) : Except String ConvexBackend × List ExtAction :=
  let storageDir := backendDir ++ "/convex_local_storage"
  let actions := [ExtAction.mkdirStorage storageDir, ExtAction.downloadBinary,
    ExtAction.spawnProcess convexBinary]
  match pidOutcome with
  | some pid => (.ok { b with process := some pid }, actions)
  | none => (.error "Convex process failed to start - no PID assigned", actions)

/-- C8: `spawn` makes exactly one process-creation attempt, never issues a
readiness probe, returns the updated instance as soon as a pid is assigned,
and raises the no-PID error when process creation yields no identifier —
with still exactly one spawn attempt in the trace, i.e. no retry. -/
theorem C8_spawn_fire_and_forget (b : ConvexBackend)
    (backendDir convexBinary : String) (pidOutcome : Option Nat) :
    (b.spawn backendDir convexBinary pidOutcome).2.count
        (ExtAction.spawnProcess convexBinary) = 1 ∧
    (∀ u, ExtAction.probe u ∉ (b.spawn backendDir convexBinary pidOutcome).2) ∧
    (b.spawn backendDir convexBinary pidOutcome).1 =
      (match pidOutcome with
       | some pid => .ok { b with process := some pid }
       | none => .error "Convex process failed to start - no PID assigned") := by
  rcases pidOutcome with _ | pid <;>
    simp [ConvexBackend.spawn, List.count_cons]

/-- The outcome of one poll of the liveness endpoint. -/
inductive ProbeOutcome where
  | status (code : Nat)
  | connRefused
deriving Repr, DecidableEq

/-- Whether a poll outcome is a 2xx response. -/
def ProbeOutcome.is2xx : ProbeOutcome → Bool
  | .status code => 200 ≤ code && code ≤ 299
  | .connRefused => false

/-- The ways `waitForReady` can fail: the port guard in `healthCheck`, or the
prober's timeout.  `connRefused` is distinct from `timeout` and is never the
result of a `waitForReady` call — connection refusal is swallowed inside the
polling loop. -/
inductive HealthError where
  | portNotSet
  | timeout
  | connRefused
deriving Repr, DecidableEq

/-- Modelled from the spec: `waitForHttpOk` lives in `utils.ts`, which is not
part of the available sources.  Spec §4.4: the prober repeatedly polls the
liveness endpoint at a bounded fixed interval until any 2xx response is
observed or the health-check timeout elapses, swallowing and retrying
connection-refused outcomes, and raising a timeout error distinguishable
from connection-refused once the bound is hit.  `probe i` is the outcome of
the `i`-th poll and `fuel` the number of polls fitting in the timeout
window, so exhausting the fuel is the timeout bound elapsing; the recursion
is structurally bounded by `fuel`, so the call cannot hang past the bound. -/
def waitForHttpOk (probe : Nat → ProbeOutcome) : Nat → Nat → Except HealthError Unit
  | 0, _ => .error .timeout
  | fuel + 1, i =>
    match probe i with
    | .status code =>
      if 200 ≤ code ∧ code ≤ 299 then .ok () else waitForHttpOk probe fuel (i + 1)
    | .connRefused => waitForHttpOk probe fuel (i + 1)

/-- Method `healthCheck()`: the port guard, then the bounded poll of `/version`. -/
def ConvexBackend.healthCheck (b : ConvexBackend) (probe : Nat → ProbeOutcome)
    (fuel : Nat) : Except HealthError Unit :=
  if !jsTruthyNum b.port then .error .portNotSet
  else waitForHttpOk probe fuel 0

/-- Method `waitForReady()`: delegates to `healthCheck` (the subsequent logging has
no further behavior). -/
def ConvexBackend.waitForReady (b : ConvexBackend) (probe : Nat → ProbeOutcome)
    (fuel : Nat) : Except HealthError Unit :=
  b.healthCheck probe fuel

/-- A 2xx poll within the window makes the poll loop succeed. -/
theorem waitForHttpOk_ok (probe : Nat → ProbeOutcome) :
    ∀ fuel i, (∃ j, j < fuel ∧ (probe (i + j)).is2xx = true) →
      waitForHttpOk probe fuel i = .ok () := by
  intro fuel
  induction fuel with
  | zero => intro i ⟨j, hj, _⟩; omega
  | succ n ih =>
    intro i ⟨j, hj, h2⟩
    by_cases hi : (probe i).is2xx = true
    · rcases hp : probe i with code | _
      · rw [hp] at hi
        simp only [ProbeOutcome.is2xx] at hi
        simp [waitForHttpOk, hp, Nat.le_of_ble_eq_true, of_decide_eq_true,
          (by simpa using hi : 200 ≤ code ∧ code ≤ 299)]
      · rw [hp] at hi
        simp [ProbeOutcome.is2xx] at hi
    · have hj0 : j ≠ 0 := by
        intro h0
        rw [h0, Nat.add_zero] at h2
        exact hi h2
      have hnext : ∃ j', j' < n ∧ (probe (i + 1 + j')).is2xx = true := by
        refine ⟨j - 1, by omega, ?_⟩
        have : i + 1 + (j - 1) = i + j := by omega
        rw [this]
        exact h2
      rcases hp : probe i with code | _
      · have hcode : ¬(200 ≤ code ∧ code ≤ 299) := by
          rw [hp] at hi
          simpa [ProbeOutcome.is2xx] using hi
        simp [waitForHttpOk, hp, hcode, ih (i + 1) hnext]
      · simp [waitForHttpOk, hp, ih (i + 1) hnext]

/-- No 2xx poll within the window makes the poll loop raise the timeout
error. -/
theorem waitForHttpOk_timeout (probe : Nat → ProbeOutcome) :
    ∀ fuel i, (∀ j, j < fuel → (probe (i + j)).is2xx = false) →
      waitForHttpOk probe fuel i = .error .timeout := by
  intro fuel
  induction fuel with
  | zero => intro i _; rfl
  | succ n ih =>
    intro i h
    have h0 : (probe i).is2xx = false := by
      have := h 0 (Nat.succ_pos n)
      rwa [Nat.add_zero] at this
    have hnext : ∀ j, j < n → (probe (i + 1 + j)).is2xx = false := by
      intro j hj
      have : i + 1 + j = i + (j + 1) := by omega
      rw [this]
      exact h (j + 1) (by omega)
    rcases hp : probe i with code | _
    · have hcode : ¬(200 ≤ code ∧ code ≤ 299) := by
        rw [hp] at h0
        simpa [ProbeOutcome.is2xx] using h0
      simp [waitForHttpOk, hp, hcode, ih (i + 1) hnext]
    · simp [waitForHttpOk, hp, ih (i + 1) hnext]

/-- The poll loop never surfaces a connection-refused error. -/
theorem waitForHttpOk_ne_connRefused (probe : Nat → ProbeOutcome) :
    ∀ fuel i, waitForHttpOk probe fuel i ≠ .error .connRefused := by
  intro fuel
  induction fuel with
  | zero => intro i h; exact absurd (Except.error.inj h) (by decide)
  | succ n ih =>
    intro i
    rcases hp : probe i with code | _
    · by_cases hcode : 200 ≤ code ∧ code ≤ 299
      · simp [waitForHttpOk, hp, hcode]
      · simp [waitForHttpOk, hp, hcode]
        exact ih (i + 1)
    · simp [waitForHttpOk, hp]
      exact ih (i + 1)

/-- C5: on an instance whose port guard passes, `waitForReady` succeeds as
soon as some poll within the bounded window returns a 2xx status; when no
poll in the window does, it raises the timeout error — an error distinct
from the connection-refused condition — after at most the window's polls
(the loop is structurally bounded by `fuel`, so it cannot hang); and its
result is never the connection-refused error: refusals inside the window are
swallowed and retried. -/
theorem C5_waitForReady_bounded (b : ConvexBackend) (probe : Nat → ProbeOutcome)
    (fuel : Nat) (hport : jsTruthyNum b.port = true) :
    ((∃ j, j < fuel ∧ (probe j).is2xx = true) → b.waitForReady probe fuel = .ok ()) ∧
    ((∀ j, j < fuel → (probe j).is2xx = false) →
      b.waitForReady probe fuel = .error .timeout) ∧
    HealthError.timeout ≠ HealthError.connRefused ∧
    b.waitForReady probe fuel ≠ .error .connRefused := by
  refine ⟨?_, ?_, by decide, ?_⟩
  · intro ⟨j, hj, h2⟩
    have := waitForHttpOk_ok probe fuel 0 ⟨j, hj, by simpa using h2⟩
    simp [ConvexBackend.waitForReady, ConvexBackend.healthCheck, hport, this]
  · intro h
    have := waitForHttpOk_timeout probe fuel 0 (by intro j hj; simpa using h j hj)
    simp [ConvexBackend.waitForReady, ConvexBackend.healthCheck, hport, this]
  · have := waitForHttpOk_ne_connRefused probe fuel 0
    simp [ConvexBackend.waitForReady, ConvexBackend.healthCheck, hport]
    exact this

/-- A probe that refuses the connection twice and then answers 200. -/
def sampleProbe : Nat → ProbeOutcome := fun i =>
  if i < 2 then .connRefused else .status 200

/-- Witness for C5: on the sample instance, the sample probe (two refusals,
then 200) makes `waitForReady` succeed within a window of 5 polls, and the
result is not a connection-refused error. -/
theorem C5_waitForReady_bounded_witness :
    sampleBackend.waitForReady sampleProbe 5 = .ok () ∧
    sampleBackend.waitForReady sampleProbe 5 ≠ .error .connRefused :=
  ⟨(C5_waitForReady_bounded sampleBackend sampleProbe 5 rfl).1
      ⟨2, by decide, by decide⟩,
   (C5_waitForReady_bounded sampleBackend sampleProbe 5 rfl).2.2.2⟩
